import Mathlib

/-!
Verification development for the SprelfJSON JSON-model engine
(`src/SprelfJSON/JSONModel/ModelElem.py`, `src/SprelfJSON/JSONModel/JSONModel.py`,
`src/SprelfJSON/Helpers/TimeHelpers.py`).

The embedding covers the fragment of the engine that the checked claims
exercise: the type descriptors `_BaseModelElem` / `ModelElem` /
`AlternateModelElem` with the shapes primitive (`str`, `int`, `float`,
`bool`), `NoneType`, `list`, `set`, `tuple` (fixed and variadic),
`Optional`, union, the four enum families, `timedelta`, and the `Ellipsis`
placeholder that a variadic tuple's second generic wraps; and the
`JSONModel` record layer (`validate_model`, construction, `from_json`,
`to_json`, subtype resolution and its cache).  Shapes none of the claims
touch (`dict`, `type`, `datetime`/`date`/`time`, `bytes`, `Pattern`,
nested `JSONConvertible` records, bare `Iterable`/`Iterator`) are left out
of the descriptor grammar; every retained branch is translated from the
Python source, with source line numbers cited at each definition.

Python exceptions are modelled as an explicit error type that keeps the
exception class: the engine's own `ModelElemError` / `JSONModelError` and
the builtin exceptions (`KeyError`, `TypeError`, ...) that escape where the
source's `except` clauses do not catch them.  A Python `dict` mutation is
modelled by returning the changed dictionary; a caller observes a mutation
only when the source mutates the very object the caller passed in, so
`from_json` and `validate_model` below also return the caller-visible
final state of their dictionary argument.
-/

/-- Python exceptions that the modelled fragment can raise.  `modelElemError`
is the engine's `ModelElemError` (ModelElem.py line 30), `jsonModelError` the
`JSONModelError` base raised by the record layer; `keyError` is the builtin
`KeyError` (raised by `Enum.__getitem__` on a missing member name) and
`otherError` stands for the remaining builtins (`IndexError`, `TypeError`,
`AttributeError`) escaping at the recorded places. -/
inductive PyErr where
  | modelElemError (msg : String)
  | jsonModelError (msg : String)
  | keyError (key : String)
  | otherError (msg : String)
deriving DecidableEq

@[simp] theorem exceptBindOk {a : Type} {b : Type} (x : a) (f : a → Except PyErr b) :
    (Except.ok x >>= f) = f x := rfl

@[simp] theorem exceptBindError {a : Type} {b : Type} (e : PyErr) (f : a → Except PyErr b) :
    ((Except.error e : Except PyErr a) >>= f) = .error e := rfl

@[simp] theorem exceptMapOk {a : Type} {b : Type} (x : a) (f : a → b) :
    Except.map f (Except.ok x : Except PyErr a) = .ok (f x) := rfl

@[simp] theorem exceptMapError {a : Type} {b : Type} (e : PyErr) (f : a → b) :
    Except.map f (Except.error e : Except PyErr a) = .error e := rfl

/-- The four enum families the engine distinguishes (ModelElem.py lines
278-322): `IntFlag`, `IntEnum`, `StrEnum` and the general `Enum`. -/
inductive EnumKind where
  | flagE | intE | strE | plainE
deriving DecidableEq

/-- A declared enum member's value: int-backed or str-backed. -/
inductive EnumLit where
  | i (n : Int)
  | s (s : String)
deriving DecidableEq

/-- An enum class: its name, family, and ordered `(member name, value)`
declarations. -/
structure EnumDecl where
  ename : String
  kind : EnumKind
  members : List (String × EnumLit)
deriving DecidableEq

/-- The `origin` a `_BaseModelElem` stores (ModelElem.py line 49): the class
or typing construct the annotated type reduces to.  `ellipsisO` is the origin
of the `_BaseModelElem` wrapper that `_validate_definition` (line 477) builds
around the literal `Ellipsis` in `tuple[X, ...]`.  `noneO` is `NoneType`. -/
inductive Origin where
  | strO | intO | floatO | boolO | noneO
  | listO | setO | tupleO
  | optionalO | unionO
  | timedeltaO
  | enumO (d : EnumDecl)
  | ellipsisO
deriving DecidableEq

/-- `_BaseModelElem` (ModelElem.py line 40): an origin plus the child
elements its generic parameters were wrapped into (line 477). -/
inductive BaseModelElem where
  | mk (origin : Origin) (generics : List BaseModelElem)

/-- The `origin` attribute of a `_BaseModelElem`. -/
def BaseModelElem.origin : BaseModelElem → Origin
  | .mk o _ => o

/-- The `generics` attribute of a `_BaseModelElem`. -/
def BaseModelElem.generics : BaseModelElem → List BaseModelElem
  | .mk _ gs => gs

/-- The Python values flowing through the modelled fragment.  `float` is
carried as a rational: the only float operations the claims reach are
`float(int)` widening and millisecond arithmetic, exact at every input the
development evaluates.  `enumMember` is a member of a declared `Enum` /
`IntEnum` / `StrEnum`; `flagVal` an `IntFlag` value (possibly a bitwise
combination that is no declared member). -/
inductive PyVal where
  | none
  | bool (b : Bool)
  | int (n : Int)
  | float (q : Rat)
  | str (s : String)
  | list (xs : List PyVal)
  | tuple (xs : List PyVal)
  | set (xs : List PyVal)
  | timedelta (us : Int)
  | enumMember (ename : String) (kind : EnumKind) (mname : String) (mval : EnumLit)
  | flagVal (ename : String) (bits : Int)

/-- `type(v).__name__` for the modelled values. -/
def pyTypeName : PyVal → String
  | .none => "NoneType"
  | .bool _ => "bool"
  | .int _ => "int"
  | .float _ => "float"
  | .str _ => "str"
  | .list _ => "list"
  | .tuple _ => "tuple"
  | .set _ => "set"
  | .timedelta _ => "timedelta"
  | .enumMember e _ _ _ => e
  | .flagVal e _ => e

/-- `str(v)` as an f-string interpolates it, for the modelled values used in
error messages (ints, strings, bools). -/
def pyFormat : PyVal → String
  | .none => "None"
  | .bool b => if b then "True" else "False"
  | .int n => toString n
  | .float q => toString q
  | .str s => s
  | .list _ => "[...]"
  | .tuple _ => "(...)"
  | .set _ => "{...}"
  | .timedelta us => toString us
  | .enumMember e _ m _ => e ++ "." ++ m
  | .flagVal e b => e ++ "(" ++ toString b ++ ")"

/-- The numeric view Python `==` and `isinstance(-, int)` use: `bool` is a
subclass of `int`, `IntEnum` members and `IntFlag` values are ints. -/
def pyAsInt : PyVal → Option Int
  | .int n => some n
  | .bool b => some (if b then 1 else 0)
  | .enumMember _ .intE _ (.i n) => some n
  | .flagVal _ n => some n
  | _ => Option.none

/-- The string view: `str` values and `StrEnum` members (a `StrEnum` member
is an instance of `str`). -/
def pyAsStr : PyVal → Option String
  | .str s => some s
  | .enumMember _ .strE _ (.s s) => some s
  | _ => Option.none

/-- The numeric value Python `==` compares across `bool`/`int`/`float`. -/
def pyAsNum : PyVal → Option Rat
  | .int n => some (n : Rat)
  | .bool b => some (if b then 1 else 0)
  | .float q => some q
  | .enumMember _ .intE _ (.i n) => some (n : Rat)
  | .flagVal _ n => some (n : Rat)
  | _ => Option.none

mutual

/-- Python `==` on the modelled values: numeric cross-type equality
(`True == 1`, `1 == 1.0`), string equality (a `StrEnum` member equals its
string value), element-wise equality for same-typed containers, identity
for general enum members, and `False` across distinct categories. -/
def pyEq : PyVal → PyVal → Bool
  | v, w =>
    match pyAsNum v, pyAsNum w with
    | some a, some b => a == b
    | _, _ =>
      match pyAsStr v, pyAsStr w with
      | some a, some b => a == b
      | _, _ =>
        match v, w with
        | .none, .none => true
        | .list xs, .list ys => pyEqList xs ys
        | .tuple xs, .tuple ys => pyEqList xs ys
        | .set xs, .set ys => pySubset xs ys && pySubset ys xs
        | .timedelta a, .timedelta b => a == b
        | .enumMember e1 k1 m1 _, .enumMember e2 k2 m2 _ =>
            e1 == e2 && k1 == k2 && m1 == m2
        | _, _ => false
termination_by v w => sizeOf v + sizeOf w

/-- Element-wise `==` of two Python sequences of equal length. -/
def pyEqList : List PyVal → List PyVal → Bool
  | [], [] => true
  | x :: xs, y :: ys => pyEq x y && pyEqList xs ys
  | _, _ => false
termination_by xs ys => sizeOf xs + sizeOf ys

/-- Membership by Python `==`, as set containment tests it. -/
def pyMem : PyVal → List PyVal → Bool
  | _, [] => false
  | v, y :: ys => pyEq v y || pyMem v ys
termination_by v ys => sizeOf v + sizeOf ys

/-- Every element of the first list is `==` to some element of the second. -/
def pySubset : List PyVal → List PyVal → Bool
  | [], _ => true
  | x :: xs, ys => pyMem x ys && pySubset xs ys
termination_by xs ys => sizeOf xs + sizeOf ys

end

/-- Python `set` construction order: keep the first of `==`-equal elements. -/
def pyDedup : List PyVal → List PyVal
  | [] => []
  | x :: xs => if pyMem x (pyDedup xs) then pyDedup xs else x :: pyDedup xs

/-- CPython keeps the first inserted of equal elements, so dedup scans the
already-kept prefix. -/
def pySetOf (xs : List PyVal) : List PyVal :=
  go xs []
where
  go : List PyVal → List PyVal → List PyVal
    | [], acc => acc.reverse
    | x :: rest, acc => if pyMem x acc then go rest acc else go rest (x :: acc)

/-- `isinstance(val, Hashable)` on the modelled values: containers are
unhashable. -/
def PyVal.hashable : PyVal → Bool
  | .list _ => false
  | .set _ => false
  | _ => true

/-- Iterating a Python value (`isinstance(val, Iterable)` together with the
elements iteration yields): sequences and sets yield their elements, a
string yields its one-character strings.  `Option.none` for non-iterables. -/
def pyIter : PyVal → Option (List PyVal)
  | .list xs => some xs
  | .tuple xs => some xs
  | .set xs => some xs
  | .str s => some (s.toList.map (fun c => .str (String.mk [c])))
  | _ => Option.none

/-- `isinstance(val, origin)` for the modelled class origins: `bool` is a
subclass of `int`, `IntEnum` members and `IntFlag` values are ints, `StrEnum`
members are strs, enum members are instances of their own enum class. -/
def isinstanceOf (v : PyVal) (o : Origin) : Bool :=
  match o with
  | .strO => (pyAsStr v).isSome
  | .intO => (pyAsInt v).isSome
  | .floatO => match v with | .float _ => true | _ => false
  | .boolO => match v with | .bool _ => true | _ => false
  | .noneO => match v with | .none => true | _ => false
  | .listO => match v with | .list _ => true | _ => false
  | .setO => match v with | .set _ => true | _ => false
  | .tupleO => match v with | .tuple _ => true | _ => false
  | .timedeltaO => match v with | .timedelta _ => true | _ => false
  | .enumO d =>
    match v with
    | .enumMember e _ _ _ => e == d.ename
    | .flagVal e _ => e == d.ename
    | _ => false
  | .optionalO => false
  | .unionO => false
  | .ellipsisO => false

/-- `float(val)` for an int-instance (ModelElem.py line 236). -/
def pyFloatOfInt (v : PyVal) : PyVal :=
  match pyAsInt v with
  | some n => .float (n : Rat)
  | Option.none => .float 0

/-- Bare name of an origin class, as `origin.__name__` yields it. -/
def originName : Origin → String
  | .strO => "str"
  | .intO => "int"
  | .floatO => "float"
  | .boolO => "bool"
  | .noneO => "NoneType"
  | .listO => "list"
  | .setO => "set"
  | .tupleO => "tuple"
  | .timedeltaO => "timedelta"
  | .enumO d => d.ename
  | .ellipsisO => "ellipsis"
  | .optionalO => "Optional"
  | .unionO => "Union"

/-- Repr of a non-generic annotated type, as `repr(cls)` shows a class. -/
def reprOriginBare : Origin → String
  | .enumO d => "<enum '" ++ d.ename ++ "'>"
  | .ellipsisO => "Ellipsis"
  | o => "<class '" ++ originName o ++ "'>"

mutual

/-- Repr of `self.annotated_type` (ModelElem.py line 67), interpolated with
`!r` into the engine's error messages.  `ClassHelpers.as_generic` itself is
outside the staged sources; this mirrors the reprs of the typing aliases it
rebuilds (`list[int]`, `typing.Optional[...]`, `typing.Union[...]`).  No
claim depends on the exact text, only on the message naming the type. -/
def reprAnnotated : BaseModelElem → String
  | .mk .optionalO [g] => "typing.Optional[" ++ reprAnnotated g ++ "]"
  | .mk .optionalO _ => "typing.Optional[?]"
  | .mk .unionO gs => "typing.Union[" ++ reprArgs gs ++ "]"
  | .mk o [] => reprOriginBare o
  | .mk o gs => originName o ++ "[" ++ reprArgs gs ++ "]"
termination_by e => sizeOf e

/-- Comma-joined reprs of a generic parameter list. -/
def reprArgs : List BaseModelElem → String
  | [] => ""
  | [g] => reprAnnotated g
  | g :: rest => reprAnnotated g ++ ", " ++ reprArgs rest
termination_by gs => sizeOf gs

end

/-- Joined reprs of child descriptors, as `', '.join(repr(g.annotated_type)
for g in self.generics)` builds them for union error messages. -/
def joinedChildReprs (gs : List BaseModelElem) : String :=
  String.intercalate ", " (gs.map reprAnnotated)

/-- The check at ModelElem.py line 185: `len(self.generics) == 2 and
self.generics[1].origin is Ellipsis`, marking a variadic tuple. -/
def variadicTail (gs : List BaseModelElem) : Bool :=
  match gs with
  | [_, g1] => g1.origin == .ellipsisO
  | _ => false

/-- Digits at the front of a character list: the parsed number and the rest.
`Option.none` when no digit leads. -/
def takeDigits (cs : List Char) : Option (Nat × List Char) :=
  let ds := cs.takeWhile Char.isDigit
  if ds.isEmpty then Option.none
  else some (ds.foldl (fun a c => a * 10 + (c.toNat - 48)) 0, cs.drop ds.length)

/-- Drop a literal prefix, or fail. -/
def dropLit (lit : String) (cs : List Char) : Option (List Char) :=
  if lit.toList.isPrefixOf cs then some (cs.drop lit.length) else Option.none

/-- One optional `label=\d+,` group of `TimeHelpers.TIMEDELTA_REGEX`
(TimeHelpers.py line 10).  The group labels are pairwise distinct literals,
so the regex match is deterministic: if the label is present the whole group
must match, otherwise the group is skipped. -/
def optSegment (label : String) (cs : List Char) : Option (Option Nat × List Char) :=
  match dropLit label cs with
  | some rest =>
    match takeDigits rest with
    | some (n, rest2) =>
      match dropLit "," rest2 with
      | some rest3 => some (some n, rest3)
      | Option.none => Option.none
    | Option.none => Option.none
  | Option.none => some (Option.none, cs)

/-- Match of `TIMEDELTA_REGEX`
`^(days=(?P<d>\d+),)?(hours=(?P<h>\d+),)?(minutes=(?P<m>\d+),)?seconds=(?P<s>\d+)(\.(?P<ms>\d+))?$`
against a string: the groups d, h, m (optional), s (required), ms (optional). -/
def matchTimedelta (s : String) :
    Option (Option Nat × Option Nat × Option Nat × Nat × Option Nat) :=
  match optSegment "days=" s.toList with
  | Option.none => Option.none
  | some (d, r1) =>
    match optSegment "hours=" r1 with
    | Option.none => Option.none
    | some (h, r2) =>
      match optSegment "minutes=" r2 with
      | Option.none => Option.none
      | some (m, r3) =>
        match dropLit "seconds=" r3 with
        | Option.none => Option.none
        | some r4 =>
          match takeDigits r4 with
          | Option.none => Option.none
          | some (sec, r5) =>
            match dropLit "." r5 with
            | some r6 =>
              match takeDigits r6 with
              | some (ms, r7) => if r7.isEmpty then some (d, h, m, sec, some ms) else Option.none
              | Option.none => Option.none
            | Option.none => if r5.isEmpty then some (d, h, m, sec, Option.none) else Option.none

/-- Microseconds of `timedelta(days=d, hours=h, minutes=m, seconds=s,
milliseconds=ms)`. -/
def timedeltaUs (d h m s ms : Nat) : Int :=
  (((d * 86400 + h * 3600 + m * 60 + s) * 1000 + ms) * 1000 : Nat)

/-- The normalized `.seconds` attribute of a Python `timedelta` held as total
microseconds: `(us // 10**6) % 86400`, seconds within the day.  Both
divisors are positive, so Euclidean division and Python floor division
agree. -/
def timedeltaSeconds (us : Int) : Int :=
  (us / 1000000) % 86400

/-- Microseconds of `timedelta(seconds=q)` for a float `q`.  CPython rounds
the fractional microsecond half-to-even; this rounds half away from zero,
identical except at exact half-microseconds, which no claim evaluates. -/
def usOfFloatSeconds (q : Rat) : Int :=
  round (q * 1000000)

/-- Python `==` between a value and a declared member's backing value, as
the enum `_value2member_map_` lookup compares (numeric for int-backed
members, so `True` and `1.0` match member value `1`). -/
def litMatch (v : PyVal) : EnumLit → Bool
  | .i n => pyAsNum v == some (n : Rat)
  | .s s => pyAsStr v == some s

/-- First declared member whose value Python-equals `v`, as the enum
constructor `origin(val)` looks members up by value. -/
def findMemberByValue : List (String × EnumLit) → PyVal → Option (String × EnumLit)
  | [], _ => Option.none
  | (mn, lit) :: rest, v =>
    if litMatch v lit then some (mn, lit) else findMemberByValue rest v

/-- First declared member with the given name, as `origin[val]` looks
members up by name. -/
def findMemberByName : List (String × EnumLit) → String → Option (String × EnumLit)
  | [], _ => Option.none
  | (mn, lit) :: rest, s =>
    if mn == s then some (mn, lit) else findMemberByName rest s

theorem ratCastBeq (m n : Int) : (((m : Rat)) == ((n : Rat))) = (m == n) := by
  simp [beq_iff_eq]

/-- `type(self.origin).__name__` for an enum class: the metaclass
`enum.EnumType` (so the messages at ModelElem.py lines 293, 299 and 309 name
the metaclass, not the enum). -/
def enumMetaName : String := "EnumType"

/-- Message of the final raise at ModelElem.py lines 364-365 (source typo
`into and object` preserved). -/
def cannotParseMsg (v : PyVal) (e : BaseModelElem) : String :=
  "Unable to parse value of type '" ++ pyTypeName v ++ "' into and object of type '"
    ++ reprAnnotated e ++ "'."

/-- Message at ModelElem.py lines 159-160. -/
def unionFailMsg (gs : List BaseModelElem) (v : PyVal) : String :=
  "Given value of type '" ++ pyTypeName v ++ "' does not meet any of the allowed types: "
    ++ joinedChildReprs gs

/-- Message at ModelElem.py line 172. -/
def notIterableListMsg (v : PyVal) : String :=
  "Given value of type '" ++ pyTypeName v ++ "' is not iterable; cannot parse as a list."

/-- Message at ModelElem.py line 178. -/
def notIterableSetMsg (v : PyVal) : String :=
  "Given value of type '" ++ pyTypeName v ++ "' is not iterable; cannot parse as a set."

/-- Message at ModelElem.py line 184. -/
def notCollectionTupleMsg (v : PyVal) : String :=
  "Given value of type '" ++ pyTypeName v ++ "' is not a collection; cannot parse as a tuple."

/-- Message at ModelElem.py lines 189-190. -/
def tupleArityMsg (v : PyVal) (e : BaseModelElem) (n : Nat) : String :=
  "Given value of type '" ++ pyTypeName v ++ "' has the wrong number of elements to be parsed as a '"
    ++ reprAnnotated e ++ "'; has (" ++ toString n ++ ")."

/-- Message at ModelElem.py line 271. -/
def timedeltaStrMsg : String := "Unable to parse timedelta string; format is invalid."

/-- Message at ModelElem.py line 276. -/
def timedeltaTypeMsg (v : PyVal) : String :=
  "Unable to parse value of type '" ++ pyTypeName v ++ "' as a timedelta."

/-- Message at ModelElem.py line 284. -/
def intFlagTypeMsg (v : PyVal) : String :=
  "Unable to parse value of type '" ++ pyTypeName v ++ "' as an IntFlag."

/-- Message at ModelElem.py lines 292-293: note it interpolates
`type(self.origin).__name__`, the metaclass name. -/
def intEnumIntMsg (v : PyVal) : String :=
  "Unable to parse IntEnum from integer; Unrecognized IntEnum value (" ++ pyFormat v
    ++ ") for '" ++ enumMetaName ++ "'."

/-- Message at ModelElem.py line 301. -/
def intEnumTypeMsg (v : PyVal) : String :=
  "Unable to parse value of type '" ++ pyTypeName v ++ "' as an IntEnum."

/-- Message at ModelElem.py lines 308-309 (the source f-string lacks the
closing quote after the metaclass name; preserved). -/
def strEnumValMsg (s : String) : String :=
  "Unable to parse StrEnum; Unrecognized StrEnum value (" ++ s ++ ") for '" ++ enumMetaName

/-- Message at ModelElem.py line 310. -/
def strEnumTypeMsg (v : PyVal) : String :=
  "Unable to parse value of type '" ++ pyTypeName v ++ "' as a StrEnum."

/-- Message at ModelElem.py lines 321-322. -/
def enumValMsg (v : PyVal) : String :=
  "Unable to parse value of type '" ++ pyTypeName v ++ "' as an Enum; Value is unrecognized."

/-- The `timedelta` string branch (ModelElem.py lines 260-271).  On a regex
match the code runs `int(groups.get(k, 0))` per group: a group that did not
participate is `None` in `groupdict()`, and `int(None)` raises `TypeError`,
which nothing catches (`except ValueError` at line 269 does not apply), so
only strings with all five groups present actually build a timedelta. -/
def parseTimedeltaString (s : String) : Except PyErr PyVal :=
  match matchTimedelta s with
  | Option.none => .error (.modelElemError timedeltaStrMsg)
  | some (dq, hq, mq, sec, msq) =>
    match dq, hq, mq, msq with
    | some d, some h, some m, some ms => .ok (.timedelta (timedeltaUs d h m sec ms))
    | _, _, _, _ =>
      .error (.otherError "TypeError: int() argument must be a string, a bytes-like object or a real number, not NoneType")

mutual

/-- `_BaseModelElem._parse_value` (ModelElem.py lines 146-365), which is also
`_BaseModelElem.parse_value` (line 139-144).  Dispatch mirrors the source's
if/elif chain, specialised to each origin of the embedded grammar; branches
for shapes outside the grammar (`Iterable`, `dict`, `type`, date/time,
`Pattern`, `JSONConvertible`, `bytes`) cannot be reached from it.  A
`generics` list shorter than the index the source reads models Python's
`IndexError`. -/
def BaseModelElem.parse_value : BaseModelElem → PyVal → Except PyErr PyVal
  | .mk .optionalO gs, v =>
    match v with
    | .none => .ok .none
    | _ =>
      match gs with
      | g :: _ => BaseModelElem.parse_value g v
      | [] => .error (.otherError "IndexError")
  | .mk .unionO gs, v =>
      parseUnion gs v (.modelElemError (unionFailMsg gs v))
  | .mk .listO gs, v =>
    match pyIter v with
    | Option.none => .error (.modelElemError (notIterableListMsg v))
    | some xs =>
      match gs with
      | g :: _ => (parseEach g xs).map PyVal.list
      | [] => .error (.otherError "IndexError")
  | .mk .setO gs, v =>
    match pyIter v with
    | Option.none => .error (.modelElemError (notIterableSetMsg v))
    | some xs =>
      match gs with
      | g :: _ => (parseEach g xs).map (fun rs => PyVal.set (pySetOf rs))
      | [] => .error (.otherError "IndexError")
  | .mk .tupleO gs, v =>
    match pyIter v with
    | Option.none => .error (.modelElemError (notCollectionTupleMsg v))
    | some xs =>
      if variadicTail gs then
        match gs with
        | g :: _ => (parseEach g xs).map PyVal.tuple
        | [] => .error (.otherError "IndexError")
      else if gs.length ≠ xs.length then
        .error (.modelElemError (tupleArityMsg v (.mk .tupleO gs) xs.length))
      else
        (parseZip gs xs).map PyVal.tuple
  | .mk .noneO gs, v =>
    if isinstanceOf v .noneO then .ok v
    else .error (.modelElemError (cannotParseMsg v (.mk .noneO gs)))
  | .mk .strO gs, v =>
    if isinstanceOf v .strO then .ok v
    else .error (.modelElemError (cannotParseMsg v (.mk .strO gs)))
  | .mk .intO gs, v =>
    if isinstanceOf v .intO then .ok v
    else .error (.modelElemError (cannotParseMsg v (.mk .intO gs)))
  | .mk .boolO gs, v =>
    if isinstanceOf v .boolO then .ok v
    else .error (.modelElemError (cannotParseMsg v (.mk .boolO gs)))
  | .mk .floatO gs, v =>
    if isinstanceOf v .floatO then .ok v
    else if isinstanceOf v .intO then .ok (pyFloatOfInt v)
    else .error (.modelElemError (cannotParseMsg v (.mk .floatO gs)))
  | .mk .timedeltaO _, v =>
    if isinstanceOf v .timedeltaO then .ok v
    else
      match pyAsStr v with
      | some s => parseTimedeltaString s
      | Option.none =>
        match pyAsInt v with
        | some n =>
          .ok (.timedelta (n * 1000))
        | Option.none =>
          match v with
          | .float q => .ok (.timedelta (usOfFloatSeconds q))
          | _ => .error (.modelElemError (timedeltaTypeMsg v))
  | .mk (.enumO d) _, v =>
    if isinstanceOf v (.enumO d) then .ok v
    else
      match d.kind with
      | .flagE =>
        match pyAsInt v with
        | some n => .ok (.flagVal d.ename n)
        | Option.none => .error (.modelElemError (intFlagTypeMsg v))
      | .intE =>
        match pyAsInt v with
        | some _ =>
          match findMemberByValue d.members v with
          | some (mn, lit) => .ok (.enumMember d.ename .intE mn lit)
          | Option.none => .error (.modelElemError (intEnumIntMsg v))
        | Option.none =>
          match pyAsStr v with
          | some s =>
            match findMemberByName d.members s with
            | some (mn, lit) => .ok (.enumMember d.ename .intE mn lit)
            | Option.none => .error (.keyError s)
          | Option.none => .error (.modelElemError (intEnumTypeMsg v))
      | .strE =>
        match pyAsStr v with
        | some s =>
          match findMemberByValue d.members (.str s) with
          | some (mn, lit) => .ok (.enumMember d.ename .strE mn lit)
          | Option.none => .error (.modelElemError (strEnumValMsg s))
        | Option.none => .error (.modelElemError (strEnumTypeMsg v))
      | .plainE =>
        match pyAsStr v with
        | some s =>
          match findMemberByName d.members s with
          | some (mn, lit) => .ok (.enumMember d.ename .plainE mn lit)
          | Option.none => .error (.keyError s)
        | Option.none =>
          match findMemberByValue d.members v with
          | some (mn, lit) => .ok (.enumMember d.ename .plainE mn lit)
          | Option.none => .error (.modelElemError (enumValMsg v))
  | .mk .ellipsisO gs, v =>
      .error (.modelElemError (cannotParseMsg v (.mk .ellipsisO gs)))
termination_by e _ => (sizeOf e, 0)

/-- Element-wise parse of a collection through one child descriptor, as the
comprehensions at ModelElem.py lines 173, 179, 186 evaluate left to right
and propagate the first exception. -/
def parseEach : BaseModelElem → List PyVal → Except PyErr (List PyVal)
  | _, [] => .ok []
  | g, x :: xs => do
    let r ← BaseModelElem.parse_value g x
    let rs ← parseEach g xs
    .ok (r :: rs)
termination_by g xs => (sizeOf g, xs.length + 1)

/-- Position-wise parse of a fixed tuple
(`tuple(g.parse_value(v) for g, v in zip(self.generics, val))`, line 191). -/
def parseZip : List BaseModelElem → List PyVal → Except PyErr (List PyVal)
  | g :: gs, x :: xs => do
    let r ← BaseModelElem.parse_value g x
    let rs ← parseZip gs xs
    .ok (r :: rs)
  | _, _ => .ok []
termination_by gs xs => (sizeOf gs, xs.length + 1)

/-- The union loop at ModelElem.py lines 154-160: each child is tried in
order, only `ModelElemError` is caught (`except ModelElemError: pass`), and
`err` is the aggregated error raised when the loop runs out. -/
def parseUnion : List BaseModelElem → PyVal → PyErr → Except PyErr PyVal
  | [], _, err => .error err
  | g :: gs, v, err =>
    match BaseModelElem.parse_value g v with
    | .ok r => .ok r
    | .error (.modelElemError _) => parseUnion gs v err
    | .error e => .error e
termination_by gs _ _ => (sizeOf gs, 0)

end

/-- The test `generics[1] is Ellipsis` at ModelElem.py line 115: an identity
comparison of a child `_BaseModelElem` against the builtin `Ellipsis`
singleton.  `_validate_definition` (line 477) wraps every generic argument —
also a literal `Ellipsis` — into a fresh `_BaseModelElem`, so the comparison
is false for every child element, unlike the parse-side check at line 185,
which reads `self.generics[1].origin is Ellipsis`. -/
def ellipsisIdentity (_g : BaseModelElem) : Bool := false

/-- The variadic-tuple test of `_validate_type` (line 115):
`len(generics) == 2 and generics[1] is Ellipsis`. -/
def variadicIdentityTail (gs : List BaseModelElem) : Bool :=
  match gs with
  | [_, g1] => ellipsisIdentity g1
  | _ => false

/-- The approximated value shape interpolated into the schema-mismatch
message (ModelElem.py lines 85-91).  The inner join iterates a Python set
comprehension, whose order is hash-dependent; first-occurrence order is used
here and coincides for the homogeneous collections any theorem evaluates.
The `Mapping` arm (lines 87-89) is unreachable in the embedded grammar. -/
def typeDescr (v : PyVal) : String :=
  match v with
  | .list xs => "list[" ++ String.intercalate "|" ((xs.map pyTypeName).eraseDups) ++ "]"
  | .set xs => "set[" ++ String.intercalate "|" ((xs.map pyTypeName).eraseDups) ++ "]"
  | _ => pyTypeName v

/-- Message at ModelElem.py lines 93-94. -/
def schemaMismatchMsg (e : BaseModelElem) (v : PyVal) : String :=
  "Schema mismatch: Expected type '" ++ reprAnnotated e ++ "', but got '"
    ++ typeDescr v ++ "' instead"

/-- The `" on key '...'"` fragment of the dump messages (line 380). -/
def keyStr : Option String → String
  | some k => " on key '" ++ k ++ "'"
  | Option.none => ""

/-- Message at ModelElem.py lines 396-397. -/
def dumpUnionMsg (gs : List BaseModelElem) (v : PyVal) (key : Option String) : String :=
  "Given value of type '" ++ pyTypeName v ++ "'" ++ keyStr key
    ++ " cannot be dumped as any of the allowed types: " ++ joinedChildReprs gs

/-- Message at ModelElem.py lines 402-404. -/
def dumpValidateMsg (e : BaseModelElem) (v : PyVal) (key : Option String) (inner : String) : String :=
  "Unable to dump value of type '" ++ pyTypeName v ++ "'" ++ keyStr key
    ++ " as the expected type '" ++ reprAnnotated e ++ "'; could not be validated: " ++ inner

/-- Message at ModelElem.py lines 411-412. -/
def dumpNotIterableMsg (v : PyVal) (key : Option String) : String :=
  "Given value of type '" ++ pyTypeName v ++ "'" ++ keyStr key
    ++ " is not iterable; cannot dump as a JSON array."

/-- Message at ModelElem.py lines 460-461. -/
def dumpFinalMsg (o : Origin) (v : PyVal) (key : Option String) : String :=
  "Unable to dump value of type '" ++ pyTypeName v ++ "'" ++ keyStr key
    ++ " as the defined model type '" ++ originName o ++ "'."

/-- The check at ModelElem.py line 406:
`any(isinstance(parsed, x) for x in (str, int, float, bool))`.  Note that
`IntEnum` / `IntFlag` / `StrEnum` members are instances of `int` / `str`,
so dump returns such members at this line (as int/str subclasses they
serialize as their underlying value) and never reaches lines 443-444. -/
def primInstance (v : PyVal) : Bool :=
  isinstanceOf v .strO || isinstanceOf v .intO || isinstanceOf v .floatO || isinstanceOf v .boolO

mutual

/-- `_BaseModelElem.validate` (ModelElem.py lines 76-94): parse, check the
parsed value with `_is_valid` (line 96, i.e. `_validate_type`), and on a
mismatch raise the schema-mismatch error built from the original value. -/
def BaseModelElem.validate : BaseModelElem → PyVal → Except PyErr PyVal
  | .mk o gs, v =>
    match BaseModelElem.parse_value (.mk o gs) v with
    | .error er => .error er
    | .ok parsed =>
      match validateType parsed o gs with
      | .error er => .error er
      | .ok true => .ok parsed
      | .ok false => .error (.modelElemError (schemaMismatchMsg (.mk o gs) v))
termination_by e _ => (sizeOf e, 0, 1)

/-- `_BaseModelElem.is_valid` (lines 69-74): `except ModelElemError` yields
`False`; any other exception propagates. -/
def BaseModelElem.is_valid : BaseModelElem → PyVal → Except PyErr Bool
  | e, v =>
    match BaseModelElem.validate e v with
    | .ok _ => .ok true
    | .error (.modelElemError _) => .ok false
    | .error er => .error er
termination_by e _ => (sizeOf e, 0, 2)

/-- `_BaseModelElem._validate_type` (lines 101-137), specialised to the
embedded origins; the final arm is line 137's `isinstance(val, origin)`,
which raises `TypeError` when the origin is the non-class `Ellipsis`. -/
def validateType : PyVal → Origin → List BaseModelElem → Except PyErr Bool
  | v, o, gs =>
    match o with
    | .listO =>
      match v with
      | .list xs =>
        match gs with
        | [] => .ok true
        | g :: _ => allValidAgainst g xs
      | _ => .ok false
    | .setO =>
      match v with
      | .set xs =>
        match gs with
        | [] => .ok true
        | g :: _ => allValidAgainst g xs
      | _ => .ok false
    | .tupleO =>
      match v with
      | .tuple xs =>
        if variadicIdentityTail gs then
          match gs with
          | g :: _ => allValidAgainst g xs
          | [] => .ok false
        else if gs.length ≠ xs.length then .ok false
        else zipValidAgainst gs xs
      | _ => .ok false
    | .optionalO =>
      match v with
      | .none => .ok true
      | _ =>
        match gs with
        | g :: _ => BaseModelElem.is_valid g v
        | [] => .error (.otherError "IndexError")
    | .unionO => anyValidType gs v
    | .ellipsisO => .error (.otherError "TypeError: isinstance() arg 2 must be a type")
    | _ => .ok (isinstanceOf v o)
termination_by _ _ gs => (sizeOf gs, 1, 0)

/-- `all(generics[0].is_valid(elem) for elem in val)` (lines 108, 111, 116),
left to right with short-circuit and error propagation. -/
def allValidAgainst : BaseModelElem → List PyVal → Except PyErr Bool
  | _, [] => .ok true
  | g, x :: xs =>
    match BaseModelElem.is_valid g x with
    | .error er => .error er
    | .ok false => .ok false
    | .ok true => allValidAgainst g xs
termination_by g xs => (sizeOf g, xs.length + 1, 0)

/-- `all(g.is_valid(elem) for g, elem in zip(generics, val))` (line 119). -/
def zipValidAgainst : List BaseModelElem → List PyVal → Except PyErr Bool
  | g :: gs, x :: xs =>
    match BaseModelElem.is_valid g x with
    | .error er => .error er
    | .ok false => .ok false
    | .ok true => zipValidAgainst gs xs
  | _, _ => .ok true
termination_by gs _ => (sizeOf gs, 0, 0)

/-- `any(cls._validate_type(val, g.origin, *g.generics) for g in generics)`
(line 132). -/
def anyValidType : List BaseModelElem → PyVal → Except PyErr Bool
  | [], _ => .ok false
  | (BaseModelElem.mk o2 gs2) :: rest, v =>
    match validateType v o2 gs2 with
    | .error er => .error er
    | .ok true => .ok true
    | .ok false => anyValidType rest v
termination_by gs _ => (sizeOf gs, 0, 2)

/-- The `parsed = self.validate(val)` step of `_dump_value` with its
`except ModelElemError` wrapper (lines 399-404); a non-`ModelElemError`
exception propagates unwrapped. -/
def dumpValidate : BaseModelElem → PyVal → Option String → Except PyErr PyVal
  | e, v, key =>
    match BaseModelElem.validate e v with
    | .ok parsed => .ok parsed
    | .error (.modelElemError em) => .error (.modelElemError (dumpValidateMsg e v key em))
    | .error er => .error er

/-- `_BaseModelElem._dump_value` (lines 378-461), which is also the base
`dump_value` (lines 369-376): `NoneType`, `Optional` and union dispatch
before validation; then the value is validated, primitive instances pass
through (line 406), containers recurse through the first child, a
`timedelta` dumps as `int(parsed.seconds * 1000)` (line 441: the normalized
seconds-within-day attribute, not the total duration), and a general enum
member dumps as its name (line 447); lines 443-444 are unreachable for
int/str-backed members, already returned at line 406. -/
def BaseModelElem.dump_value : BaseModelElem → PyVal → Option String → Except PyErr PyVal
  | .mk .noneO _, _, _ => .ok .none
  | .mk .optionalO gs, v, _ =>
    match v with
    | .none => .ok .none
    | _ =>
      match gs with
      | g :: _ => BaseModelElem.dump_value g v Option.none
      | [] => .error (.otherError "IndexError")
  | .mk .unionO gs, v, key =>
      dumpUnion gs v (.modelElemError (dumpUnionMsg gs v key))
  | .mk .listO gs, v, key => dumpContainer .listO gs v key
  | .mk .setO gs, v, key => dumpContainer .setO gs v key
  | .mk .tupleO gs, v, key => dumpContainer .tupleO gs v key
  | .mk .strO gs, v, key => dumpContainer .strO gs v key
  | .mk .intO gs, v, key =>
    match dumpValidate (.mk .intO gs) v key with
    | .error er => .error er
    | .ok parsed =>
      if primInstance parsed then .ok parsed
      else .error (.modelElemError (dumpFinalMsg .intO parsed key))
  | .mk .floatO gs, v, key =>
    match dumpValidate (.mk .floatO gs) v key with
    | .error er => .error er
    | .ok parsed =>
      if primInstance parsed then .ok parsed
      else .error (.modelElemError (dumpFinalMsg .floatO parsed key))
  | .mk .boolO gs, v, key =>
    match dumpValidate (.mk .boolO gs) v key with
    | .error er => .error er
    | .ok parsed =>
      if primInstance parsed then .ok parsed
      else .error (.modelElemError (dumpFinalMsg .boolO parsed key))
  | .mk .timedeltaO gs, v, key =>
    match dumpValidate (.mk .timedeltaO gs) v key with
    | .error er => .error er
    | .ok parsed =>
      if primInstance parsed then .ok parsed
      else
        match parsed with
        | .timedelta us => .ok (.int (timedeltaSeconds us * 1000))
        | _ => .error (.modelElemError (dumpFinalMsg .timedeltaO parsed key))
  | .mk (.enumO d) gs, v, key =>
    match dumpValidate (.mk (.enumO d) gs) v key with
    | .error er => .error er
    | .ok parsed =>
      if primInstance parsed then .ok parsed
      else
        match parsed with
        | .enumMember _ _ mn _ => .ok (.str mn)
        | _ => .error (.modelElemError (dumpFinalMsg (.enumO d) parsed key))
  | .mk .ellipsisO gs, v, key =>
    match dumpValidate (.mk .ellipsisO gs) v key with
    | .error er => .error er
    | .ok parsed => .error (.modelElemError (dumpFinalMsg .ellipsisO parsed key))
termination_by e _ _ => (sizeOf e, 1, 4)

/-- The iterable-origin dump (lines 409-415): validate, pass primitive
instances through (a `str` origin is iterable but always returns at line
406), then dump per element through the first child or `list(parsed)`. -/
def dumpContainer : Origin → List BaseModelElem → PyVal → Option String →
    Except PyErr PyVal
  | o, gs, v, key =>
    match dumpValidate (.mk o gs) v key with
    | .error er => .error er
    | .ok parsed =>
      if primInstance parsed then .ok parsed
      else
        match pyIter parsed with
        | Option.none => .error (.modelElemError (dumpNotIterableMsg parsed key))
        | some xs =>
          match gs with
          | g :: _ => (dumpEach g xs).map PyVal.list
          | [] => .ok (.list xs)
termination_by _ gs _ _ => (sizeOf gs, 0, 5)

/-- The union-dump loop (lines 390-397): `except ModelElemError` only. -/
def dumpUnion : List BaseModelElem → PyVal → PyErr → Except PyErr PyVal
  | [], _, err => .error err
  | g :: gs, v, err =>
    match BaseModelElem.dump_value g v Option.none with
    | .ok r => .ok r
    | .error (.modelElemError _) => dumpUnion gs v err
    | .error e => .error e
termination_by gs _ _ => (sizeOf gs, 0, 5)

/-- `[self.generics[0].dump_value(v) for v in parsed]` (line 414). -/
def dumpEach : BaseModelElem → List PyVal → Except PyErr (List PyVal)
  | _, [] => .ok []
  | g, x :: xs =>
    match BaseModelElem.dump_value g x Option.none with
    | .error er => .error er
    | .ok r =>
      match dumpEach g xs with
      | .error er => .error er
      | .ok rs => .ok (r :: rs)
termination_by g xs => (sizeOf g, xs.length + 1, 5)

end

/-- `AlternateModelElem` (ModelElem.py lines 591-598): a fallback descriptor
with its transformer and optional jsonifier.  The user-supplied callables may
raise, so they return `Except`. -/
structure AlternateModelElem where
  base : BaseModelElem
  transformer : PyVal → Except PyErr PyVal
  jsonifier : Option (PyVal → Except PyErr PyVal)

/-- `ModelElem` (lines 486-507): the base element plus default handling,
alternates and the ignored flag.  `defaultTup` is the `_default` tuple
(empty, or one stored value); `defaultFactory` the `_default_factory`. -/
structure ModelElem where
  base : BaseModelElem
  ignored : Bool
  alternates : List AlternateModelElem
  defaultTup : List PyVal
  defaultFactory : Option (Unit → PyVal)

/-- `ModelElem.__init__` (lines 492-507).  The `default` keyword's sentinel
is the empty tuple `()`: with no factory, `_default` becomes
`(default,) if not isinstance(default, tuple) or len(default) > 0 else default`,
so the empty tuple stays empty (no default) and anything else is wrapped. -/
def ModelElem.init (typ : BaseModelElem) (default : PyVal)
    (default_factory : Option (Unit → PyVal)) (alternates : List AlternateModelElem)
    (ignored : Bool) : ModelElem :=
  match default_factory with
  | some f =>
    { base := typ, ignored := ignored, alternates := alternates,
      defaultTup := [], defaultFactory := some f }
  | Option.none =>
    { base := typ, ignored := ignored, alternates := alternates,
      defaultTup := (match default with | .tuple [] => [] | d => [d]),
      defaultFactory := Option.none }

/-- `ModelElem.has_default` (lines 524-525):
`len(self._default) > 0 or self._default_factory is not None`. -/
def ModelElem.has_default (m : ModelElem) : Bool :=
  !m.defaultTup.isEmpty || m.defaultFactory.isSome

/-- Message at ModelElem.py line 519. -/
def noDefaultMsg : String := "ModelElem does not have a default value; cannot access"

/-- The `ModelElem.default` property (lines 516-522): raise without a
default, call the factory afresh when one is stored, else return the fixed
value `_default[0]`. -/
def ModelElem.default (m : ModelElem) : Except PyErr PyVal :=
  if !m.has_default then .error (.modelElemError noDefaultMsg)
  else
    match m.defaultFactory with
    | some f => .ok (f ())
    | Option.none =>
      match m.defaultTup with
      | d :: _ => .ok d
      | [] => .error (.otherError "IndexError")

/-- One alternate attempt (line 545): `a.transformer(a.parse_value(val))` —
the alternate's own parse (an `AlternateModelElem` inherits the base
`parse_value`), then its transformer. -/
def altAttempt (a : AlternateModelElem) (v : PyVal) : Except PyErr PyVal :=
  match BaseModelElem.parse_value a.base v with
  | .ok r => a.transformer r
  | .error er => .error er

/-- The alternates loop (lines 543-547): each attempt under a bare
`except: continue`, first success wins. -/
def tryAlternates : List AlternateModelElem → PyVal → Option PyVal
  | [], _ => Option.none
  | a :: rest, v =>
    match altAttempt a v with
    | .ok r => some r
    | .error _ => tryAlternates rest v

/-- Message at ModelElem.py lines 548-552. -/
def parseAggMsg (m : ModelElem) (v : PyVal) : String :=
  "Unable to parse value of type '" ++ pyTypeName v ++ "' as an object of type '"
    ++ reprAnnotated m.base ++ "'"
    ++ (if m.alternates.length > 0 then
          " (" ++ toString m.alternates.length ++ " alternates also failed)"
        else "")
    ++ "."

/-- `ModelElem.parse_value` (lines 533-552): an ignored element yields
`None`; otherwise the primary `_parse_value` runs under a bare `except:`
that re-raises the original exception when there are no alternates, else
tries the alternates in declared order and raises the aggregated error when
all of them fail. -/
def ModelElem.parse_value (m : ModelElem) (v : PyVal) : Except PyErr PyVal :=
  if m.ignored then .ok .none
  else
    match BaseModelElem.parse_value m.base v with
    | .ok r => .ok r
    | .error er =>
      match m.alternates with
      | [] => .error er
      | _ :: _ =>
        match tryAlternates m.alternates v with
        | some r => .ok r
        | Option.none => .error (.modelElemError (parseAggMsg m v))

/-- `ModelElem.validate` (lines 578-582): `None` when ignored, else the base
`validate` body (lines 76-94) with `self.parse_value` dispatching to the
override above. -/
def ModelElem.validate (m : ModelElem) (v : PyVal) : Except PyErr PyVal :=
  if m.ignored then .ok .none
  else
    match ModelElem.parse_value m v with
    | .error er => .error er
    | .ok parsed =>
      match validateType parsed m.base.origin m.base.generics with
      | .error er => .error er
      | .ok true => .ok parsed
      | .ok false => .error (.modelElemError (schemaMismatchMsg m.base v))

/-- A Python `dict[str, JSON]` as the record layer passes JSON objects and
keyword mappings around: an association list in insertion order, with unique
keys in every use below.  A mutation is modelled by returning the changed
dictionary. -/
abbrev JDict := List (String × PyVal)

/-- Dictionary lookup `o[key]` / `key in o`. -/
def dlookup : JDict → String → Option PyVal
  | [], _ => Option.none
  | (k, v) :: rest, key => if k == key then some v else dlookup rest key

/-- `key in o`. -/
def dcontains (o : JDict) (key : String) : Bool := (dlookup o key).isSome

/-- `o.pop(key)`: the value and the dictionary without that binding;
`Option.none` when the key is absent. -/
def dpop : JDict → String → Option (PyVal × JDict)
  | [], _ => Option.none
  | (k, v) :: rest, key =>
    if k == key then some (v, rest)
    else
      match dpop rest key with
      | some (w, rest2) => some (w, (k, v) :: rest2)
      | Option.none => Option.none

/-- `o.keys()`. -/
def dkeys (o : JDict) : List String := o.map Prod.fst

/-- A declared `JSONModel` record class as the metaclass builds it
(JSONModel.py lines 36-145): its name, the `__json_model__` mapping of field
name to `ModelElem` in declaration order, `__exclusions__`,
`__name_field_required__`, an optional `model_identity` override (the
classmethod at lines 376-378 returns `cls.__name__` unless a subclass
overrides it), whether this is one of the synthetic `_Name_Glue` classes the
metaclass inserts (lines 137-143; they carry `Glue` among their direct
bases), and the discriminator key `_name_field()` (lines 372-374 return
`"__name"` unless overridden). -/
structure ModelClass where
  name : String
  json_model : List (String × ModelElem)
  exclusions : List String
  name_field_required : Bool
  identity_override : Option PyVal
  is_glue : Bool
  name_field : String

/-- `model_identity` (lines 376-378). -/
def JSONModel.model_identity (c : ModelClass) : PyVal :=
  c.identity_override.getD (.str c.name)

/-- `get_model` (lines 355-358): `__json_model__` without the excluded
fields. -/
def JSONModel.get_model (c : ModelClass) : List (String × ModelElem) :=
  c.json_model.filter (fun p => !c.exclusions.contains p.1)

/-- The `parse_json` comprehension (lines 366-370), iterating the unfiltered
`__json_model__` in declaration order and keeping the keys present in `o`;
the first exception propagates. -/
def parseJsonGo : List (String × ModelElem) → JDict → Except PyErr JDict
  | [], _ => .ok []
  | (k, m) :: rest, o =>
    match dlookup o k with
    | Option.none => parseJsonGo rest o
    | some v =>
      match ModelElem.parse_value m v with
      | .error er => .error er
      | .ok r =>
        match parseJsonGo rest o with
        | .error er => .error er
        | .ok tail => .ok ((k, r) :: tail)

/-- `parse_json` (lines 366-370). -/
def JSONModel.parse_json (c : ModelClass) (o : JDict) : Except PyErr JDict :=
  parseJsonGo c.json_model o

/-- Message at JSONModel.py line 435. -/
def missingKeyMsg (k cname : String) : String :=
  "Missing required key '" ++ k ++ "' on '" ++ cname ++ "'."

/-- Message at JSONModel.py line 442. -/
def modelErrorOnKeyMsg (k cname inner : String) : String :=
  "Model error on key '" ++ k ++ "' of '" ++ cname ++ "': " ++ inner

/-- Message at JSONModel.py lines 447-448 (it joins every leftover key,
excluded ones included). -/
def extraKeysMsg (cname : String) (keys : List String) : String :=
  "The following keys are not found in the model for '" ++ cname ++ "': "
    ++ String.intercalate "," keys

/-- The field loop of `_validate_model` (lines 432-444) over the working
copy of `values`: a missing key uses the default (or raises the
missing-required-key error), a present key is popped from the copy; either
value then runs `validate`, `ModelElemError` wrapped into `JSONModelError`
(line 441 catches nothing else).  Returns the accumulated result and the
copy's leftover entries. -/
def validateModelGo (cname : String) :
    List (String × ModelElem) → JDict → JDict → Except PyErr (JDict × JDict)
  | [], copy, acc => .ok (acc.reverse, copy)
  | (k, m) :: rest, copy, acc =>
    match dpop copy k with
    | Option.none =>
      if !m.has_default then .error (.jsonModelError (missingKeyMsg k cname))
      else
        match m.default with
        | .error er => .error er
        | .ok dv =>
          match ModelElem.validate m dv with
          | .ok vv => validateModelGo cname rest copy ((k, vv) :: acc)
          | .error (.modelElemError em) =>
              .error (.jsonModelError (modelErrorOnKeyMsg k cname em))
          | .error er => .error er
    | some (v, copy2) =>
      match ModelElem.validate m v with
      | .ok vv => validateModelGo cname rest copy2 ((k, vv) :: acc)
      | .error (.modelElemError em) =>
          .error (.jsonModelError (modelErrorOnKeyMsg k cname em))
      | .error er => .error er

/-- `validate_model` / `_validate_model` (JSONModel.py lines 420-450).  The
first component is the validated mapping or the raised error; the second is
the caller-visible final state of `values`: line 431 rebinds `values` to a
copy (`values = {**values}`) and every `pop` acts on that copy, so the
caller's mapping is returned unchanged.  The extra-key check mirrors line
446: `any(k for k in values.keys() if k not in cls.__exclusions__)` tests
the truthiness of each leftover non-excluded key, so an empty-string key
does not trigger it; the error message joins all leftover keys. -/
def JSONModel.validate_model (c : ModelClass) (model : List (String × ModelElem))
    (values : JDict) (ignore_extra : Bool) : Except PyErr JDict × JDict :=
  (match validateModelGo c.name model values [] with
   | .error er => .error er
   | .ok (result, leftover) =>
     if !ignore_extra
         && (dkeys leftover).any (fun k => !c.exclusions.contains k && !(k == "")) then
       .error (.jsonModelError (extraKeysMsg c.name (dkeys leftover)))
     else .ok result,
   values)

/-- A constructed record instance: its concrete class and validated field
values. -/
structure Instance where
  cls : String
  fields : JDict

/-- `JSONModel.__init__` (lines 342-346), reached through the synthesized
keyword `__init__` (lines 113-116; no `__post_init__` is modelled): validate
the keyword values against `get_model` with `ignore_extra=False` and set
each validated field on the new instance. -/
def JSONModel.construct (c : ModelClass) (kwargs : JDict) : Except PyErr Instance :=
  match (JSONModel.validate_model c (JSONModel.get_model c) kwargs false).1 with
  | .error er => .error er
  | .ok flds => .ok { cls := c.name, fields := flds }

/-- Message at JSONModel.py lines 385-386. -/
def missingNameMsg (nf : String) : String :=
  "Object is missing name field '" ++ nf ++ "'; cannot determine class to instantiate."

/-- `_pop_name_from_name_field` (lines 380-389): pop the discriminator from
the given dictionary; when absent, fail if required, else fall back to the
class's own identity. -/
def JSONModel.pop_name_from_name_field (c : ModelClass) (o : JDict) :
    Except PyErr (PyVal × JDict) :=
  match dpop o c.name_field with
  | some (v, o2) => .ok (v, o2)
  | Option.none =>
    if c.name_field_required then .error (.jsonModelError (missingNameMsg c.name_field))
    else .ok (JSONModel.model_identity c, o)

/-- The process-wide `_MODEL_CACHE` (line 340), keyed by
`(discriminator value, base class)`; a class is identified by its name
(class names are unique in the modelled universe). -/
abbrev ModelCache := List ((PyVal × String) × ModelClass)

/-- Cache lookup: the tuple key compares the discriminator by Python `==`
and the base class by identity. -/
def cacheLookup : ModelCache → PyVal → String → Option ModelClass
  | [], _, _ => Option.none
  | ((nv, cn), cls) :: rest, name, base =>
    if pyEq nv name && cn == base then some cls else cacheLookup rest name base

/-- Message at JSONModel.py lines 413-414. -/
def subclassNotFoundMsg (cname : String) (name : PyVal) : String :=
  "Unable to find suitable subclass for '" ++ cname ++ "' matching the name '"
    ++ pyFormat name ++ "'; cannot parse JSONModel."

/-- The search loop of `_extract_subclass_by_name` (lines 407-411) over
`itertools.chain((cls,), ClassHelpers.all_subclasses(cls))`: skip classes
with `Glue` among their direct bases (the synthetic glue classes) and return
the first whose `model_identity` equals the discriminator
(`_subclass_match`, lines 391-393). -/
def findSubclass (name : PyVal) : List ModelClass → Option ModelClass
  | [] => Option.none
  | c :: rest =>
    if !c.is_glue && pyEq name (JSONModel.model_identity c) then some c
    else findSubclass name rest

/-- `_extract_subclass_by_name` (lines 400-414).  `subs` stands for the
enumeration `ClassHelpers.all_subclasses(cls)` (the helper lives outside the
staged sources) in its deterministic in-run iteration order.  Unhashable
discriminators skip the cache entirely; a hit returns the cached class, a
found match is inserted, no match raises naming the base class and the
discriminator. -/
def JSONModel.extract_subclass_by_name (c : ModelClass) (subs : List ModelClass)
    (name : PyVal) (cache : ModelCache) : Except PyErr ModelClass × ModelCache :=
  match (if name.hashable then cacheLookup cache name c.name else Option.none) with
  | some cls => (.ok cls, cache)
  | Option.none =>
    match findSubclass name (c :: subs) with
    | some sub =>
      (.ok sub, if name.hashable then ((name, c.name), sub) :: cache else cache)
    | Option.none => (.error (.jsonModelError (subclassNotFoundMsg c.name name)), cache)

/-- `from_json` (lines 348-350), i.e. `_from_json_meta` (lines 360-364) with
`_extract_subclass` (lines 395-398) inlined: copy the input object, pop the
discriminator from the copy, resolve the concrete class, then
`subclass(**subclass.parse_json(o))` on the original object (which still
holds the discriminator key; `parse_json` skips keys outside the model).
The copy starts with the same entries as `o` and only the copy is popped, so
the caller-visible final state of `o` — the second component — is `o`
itself; the popped copy is discarded (line 363 keeps only the class). The
third component is the final cache. -/
def JSONModel.from_json (c : ModelClass) (subs : List ModelClass) (o : JDict)
    (cache : ModelCache) : Except PyErr Instance × JDict × ModelCache :=
  match JSONModel.pop_name_from_name_field c o with
  | .error er => (.error er, o, cache)
  | .ok (name, _poppedCopy) =>
    match JSONModel.extract_subclass_by_name c subs name cache with
    | (.error er, cache2) => (.error er, o, cache2)
    | (.ok sub, cache2) =>
      match JSONModel.parse_json sub o with
      | .error er => (.error er, o, cache2)
      | .ok parsed =>
        match JSONModel.construct sub parsed with
        | .error er => (.error er, o, cache2)
        | .ok inst => (.ok inst, o, cache2)

/-- `JSONModel.to_json` (JSONModel.py lines 352-353): the committed body is
a stub that returns the empty object, whatever the instance. -/
def JSONModel.to_json (_self : Instance) : JDict := []

/-- The `Status` IntEnum of the repository's tests
(tests/TestJSONModel2.py lines 41-43). -/
def statusDecl : EnumDecl :=
  { ename := "Status", kind := .intE, members := [("ACTIVE", .i 1), ("INACTIVE", .i 0)] }

/-- The `Color` plain Enum of the repository's tests (lines 36-39). -/
def colorDecl : EnumDecl :=
  { ename := "Color", kind := .plainE,
    members := [("RED", .s "red"), ("GREEN", .s "green"), ("BLUE", .s "blue")] }

/-- Descriptor `str`. -/
def strElem : BaseModelElem := .mk .strO []

/-- Descriptor `int`. -/
def intElem : BaseModelElem := .mk .intO []

/-- Descriptor `bool`. -/
def boolElem : BaseModelElem := .mk .boolO []

/-- Descriptor `float`. -/
def floatElem : BaseModelElem := .mk .floatO []

/-- Descriptor `timedelta`. -/
def tdElem : BaseModelElem := .mk .timedeltaO []

/-- Descriptor for the `Status` IntEnum. -/
def statusElem : BaseModelElem := .mk (.enumO statusDecl) []

/-- Descriptor for the `Color` Enum. -/
def colorElem : BaseModelElem := .mk (.enumO colorDecl) []

/-- Descriptor `tuple[int, ...]`: `_validate_definition` wraps the generics
`(int, Ellipsis)` into child elements (ModelElem.py line 477). -/
def tupleVarIntElem : BaseModelElem := .mk .tupleO [intElem, .mk .ellipsisO []]

/-- A required `str` field (`ModelElem(str)`, the default keyword left at its
`()` sentinel). -/
def strField : ModelElem := ModelElem.init strElem (.tuple []) Option.none [] false

/-- A required `int` field. -/
def intField : ModelElem := ModelElem.init intElem (.tuple []) Option.none [] false

/-- A `bool` field with default `True`, as `SimpleModel.bool_field`
(tests/TestJSONModel2.py line 19). -/
def boolFieldDefTrue : ModelElem := ModelElem.init boolElem (.bool true) Option.none [] false

/-- The `SimpleModel` test class (tests/TestJSONModel2.py lines 15-19):
`string_field: str`, `int_field: int`, `bool_field: bool = True`, with
`__name_field_required__ = False`. -/
def SimpleModelC : ModelClass :=
  { name := "SimpleModel",
    json_model :=
      [("string_field", strField), ("int_field", intField), ("bool_field", boolFieldDefTrue)],
    exclusions := [], name_field_required := false, identity_override := Option.none,
    is_glue := false, name_field := "__name" }

/-- A polymorphic base class with one `str` field. -/
def BaseModelC : ModelClass :=
  { name := "BaseModel", json_model := [("base_field", strField)],
    exclusions := [], name_field_required := true, identity_override := Option.none,
    is_glue := false, name_field := "__name" }

/-- The synthetic glue class the metaclass inserts for the subtype: it shares
the subtype's namespace (so its `model_identity` override also answers `"A"`)
but carries `Glue` among its direct bases, and the resolution loop at
JSONModel.py line 408 skips it. -/
def SubAGlueC : ModelClass :=
  { name := "_SubModelA_Glue",
    json_model := [("base_field", strField), ("sub_a_field", intField)],
    exclusions := [], name_field_required := true, identity_override := some (.str "A"),
    is_glue := true, name_field := "__name" }

/-- A registered concrete subtype whose declared identity is `"A"`. -/
def SubModelAC : ModelClass :=
  { name := "SubModelA",
    json_model := [("base_field", strField), ("sub_a_field", intField)],
    exclusions := [], name_field_required := true, identity_override := some (.str "A"),
    is_glue := false, name_field := "__name" }

theorem strField_parse (s : String) :
    ModelElem.parse_value strField (.str s) = .ok (.str s) := by
  simp [ModelElem.parse_value, strField, ModelElem.init, strElem,
    BaseModelElem.parse_value, isinstanceOf, pyAsStr]

theorem strField_validate (s : String) :
    ModelElem.validate strField (.str s) = .ok (.str s) := by
  simp [ModelElem.validate, strField, ModelElem.init, strElem, ModelElem.parse_value,
    BaseModelElem.parse_value, validateType, isinstanceOf, pyAsStr,
    BaseModelElem.origin, BaseModelElem.generics]

theorem intField_parse (n : Int) :
    ModelElem.parse_value intField (.int n) = .ok (.int n) := by
  simp [ModelElem.parse_value, intField, ModelElem.init, intElem,
    BaseModelElem.parse_value, isinstanceOf, pyAsInt]

theorem intField_validate (n : Int) :
    ModelElem.validate intField (.int n) = .ok (.int n) := by
  simp [ModelElem.validate, intField, ModelElem.init, intElem, ModelElem.parse_value,
    BaseModelElem.parse_value, validateType, isinstanceOf, pyAsInt,
    BaseModelElem.origin, BaseModelElem.generics]

theorem boolField_parse (b : Bool) :
    ModelElem.parse_value boolFieldDefTrue (.bool b) = .ok (.bool b) := by
  simp [ModelElem.parse_value, boolFieldDefTrue, ModelElem.init, boolElem,
    BaseModelElem.parse_value, isinstanceOf]

theorem boolField_validate (b : Bool) :
    ModelElem.validate boolFieldDefTrue (.bool b) = .ok (.bool b) := by
  simp [ModelElem.validate, boolFieldDefTrue, ModelElem.init, boolElem, ModelElem.parse_value,
    BaseModelElem.parse_value, validateType, isinstanceOf,
    BaseModelElem.origin, BaseModelElem.generics]

theorem strField_no_default : strField.has_default = false := rfl

theorem intField_no_default : intField.has_default = false := rfl

theorem boolField_has_default : boolFieldDefTrue.has_default = true := rfl

theorem boolField_default : boolFieldDefTrue.default = .ok (.bool true) := rfl

theorem parseEach_int (ns : List Int) :
    parseEach (.mk .intO []) (ns.map PyVal.int) = .ok (ns.map PyVal.int) := by
  induction ns with
  | nil => simp [parseEach]
  | cons n rest ih =>
    simp [parseEach, BaseModelElem.parse_value, isinstanceOf, pyAsInt, ih]

/-- C2.  Parsing the integer `93784000` as a `timedelta` yields 1 day 2 hours
3 minutes 4 seconds (93784000000 microseconds), as the claim states; but
dumping that value yields `int(parsed.seconds * 1000) = 7384000`, not
`93784000`: line 441 multiplies the normalized seconds-within-the-day
attribute, discarding the day component (and sub-second microseconds), so
dumping a parsed integer-millisecond duration does not return the original
integer once it spans a day.  The repository's own test
(tests/TestJSONModel2.py lines 223, 240-244) asserts the dump equals
`93784000`. -/
theorem claim_C2_duration_roundtrip_bug :
    BaseModelElem.parse_value tdElem (.int 93784000) = .ok (.timedelta 93784000000)
      ∧ (93784000000 : Int) = (((1 * 24 + 2) * 60 + 3) * 60 + 4) * 1000000
      ∧ BaseModelElem.dump_value tdElem (.timedelta 93784000000) Option.none
          = .ok (.int 7384000)
      ∧ (7384000 : Int) ≠ (93784000 : Int) := by
  refine ⟨?_, by norm_num, ?_, by decide⟩
  · simp [BaseModelElem.parse_value, tdElem, isinstanceOf, pyAsStr, pyAsInt]
  · have hval : BaseModelElem.validate (.mk .timedeltaO []) (.timedelta 93784000000)
        = .ok (.timedelta 93784000000) := by
      simp [BaseModelElem.validate, BaseModelElem.parse_value, isinstanceOf, validateType]
    simp [BaseModelElem.dump_value, tdElem, dumpValidate, hval, primInstance, isinstanceOf,
      pyAsStr, pyAsInt]
    decide

/-- C3.  For an `IntEnum` descriptor (the tests' `Status`), a string input
matching no member name makes `parse_value` raise the builtin `KeyError`,
not the engine's `ModelElemError`: `self.origin[val]` (ModelElem.py line
296) raises `KeyError` and the handler at line 297 catches only
`ValueError`.  The same holds for a general `Enum` (line 315/316).  The
repository's own test (tests/TestJSONModel2.py lines 601-626,
`test_invalid_enum_parsing_error`) expects a `JSONModelError` for exactly
these inputs.  The int-valued path, by contrast, does raise the engine's
error, as the third conjunct shows. -/
theorem claim_C3_enum_error_escape_bug :
    BaseModelElem.parse_value statusElem (.str "PENDING") = .error (.keyError "PENDING")
      ∧ BaseModelElem.parse_value colorElem (.str "PURPLE") = .error (.keyError "PURPLE")
      ∧ BaseModelElem.parse_value statusElem (.int 99)
          = .error (.modelElemError (intEnumIntMsg (.int 99))) := by
  refine ⟨?_, ?_, ?_⟩ <;>
    simp [BaseModelElem.parse_value, statusElem, colorElem, statusDecl, colorDecl,
      isinstanceOf, pyAsInt, pyAsStr, findMemberByName, findMemberByValue, litMatch,
      pyAsNum, ratCastBeq]

/-- C4.  Parsing through a variadic tuple descriptor `tuple[int, ...]`
succeeds for inputs of every length, parsing each element via the first
child (first conjunct, for all lengths); but `validate` rejects every such
value: `_validate_type` (ModelElem.py line 115) tests `generics[1] is
Ellipsis` — the identity of the child `_BaseModelElem` wrapper against the
`Ellipsis` singleton, which never holds — so the variadic case falls
through to the fixed-arity length check and fails (length 3), and even a
length-2 input fails because the second position is checked against the
unparseable `Ellipsis` child.  The repository's own test
(tests/TestJSONModel2.py lines 397, 419-420) expects `tuple_int: tuple[int,
...]` to accept `[0, 1, 2]`. -/
theorem claim_C4_variadic_tuple_validate_bug :
    (∀ ns : List Int,
        BaseModelElem.parse_value tupleVarIntElem (.list (ns.map PyVal.int))
          = .ok (.tuple (ns.map PyVal.int)))
      ∧ BaseModelElem.validate tupleVarIntElem (.list [.int 0, .int 1, .int 2])
          = .error (.modelElemError
              (schemaMismatchMsg tupleVarIntElem (.list [.int 0, .int 1, .int 2])))
      ∧ BaseModelElem.validate tupleVarIntElem (.list [.int 0, .int 1])
          = .error (.modelElemError
              (schemaMismatchMsg tupleVarIntElem (.list [.int 0, .int 1]))) := by
  refine ⟨?_, ?_, ?_⟩
  · intro ns
    simp [BaseModelElem.parse_value, tupleVarIntElem, intElem, pyIter, variadicTail,
      BaseModelElem.origin, parseEach_int]
  · simp [BaseModelElem.validate, tupleVarIntElem, BaseModelElem.parse_value, pyIter,
      variadicTail, BaseModelElem.origin, BaseModelElem.generics, parseEach,
      intElem, isinstanceOf, pyAsInt, validateType, variadicIdentityTail, ellipsisIdentity]
  · simp [BaseModelElem.validate, tupleVarIntElem, BaseModelElem.parse_value, pyIter,
      variadicTail, BaseModelElem.origin, BaseModelElem.generics, parseEach,
      intElem, isinstanceOf, pyAsInt, validateType, variadicIdentityTail, ellipsisIdentity,
      zipValidAgainst, BaseModelElem.is_valid, cannotParseMsg]

/-- The instance `SimpleModel(string_field="hello", int_field=42,
bool_field=False)` — every schema field explicitly supplied. -/
def simpleInstance : Instance :=
  { cls := "SimpleModel",
    fields := [("string_field", .str "hello"), ("int_field", .int 42),
               ("bool_field", .bool false)] }

/-- C1.  The committed `to_json` is a stub returning `{}` (JSONModel.py
lines 352-353), so the round trip fails: for an instance built with every
field explicitly supplied, `to_json` yields the empty object and
`from_json` on that object raises the missing-required-key error instead of
returning an equal instance.  The repository's own tests
(tests/TestJSONModel2.py lines 199-208) assert `to_json` returns the full
field mapping. -/
theorem claim_C1_roundtrip_stub_bug :
    JSONModel.construct SimpleModelC
        [("string_field", .str "hello"), ("int_field", .int 42), ("bool_field", .bool false)]
      = .ok simpleInstance
    ∧ JSONModel.to_json simpleInstance = []
    ∧ (JSONModel.from_json SimpleModelC [] (JSONModel.to_json simpleInstance) []).1
        = .error (.jsonModelError (missingKeyMsg "string_field" "SimpleModel")) := by
  refine ⟨?_, rfl, ?_⟩
  · simp [JSONModel.construct, JSONModel.validate_model, JSONModel.get_model, SimpleModelC,
      validateModelGo, dpop, dkeys, strField_validate, intField_validate, boolField_validate,
      simpleInstance]
  · simp [JSONModel.from_json, JSONModel.to_json, JSONModel.pop_name_from_name_field,
      SimpleModelC, dpop, JSONModel.model_identity, JSONModel.extract_subclass_by_name,
      PyVal.hashable, cacheLookup, findSubclass, pyEq, pyAsNum, pyAsStr,
      JSONModel.parse_json, parseJsonGo, dlookup, JSONModel.construct,
      JSONModel.validate_model, JSONModel.get_model, validateModelGo, strField_no_default]

/-- C5, counterexample.  The claim says a primitive descriptor accepts only
values already of that exact primitive type (plus int→float widening), every
other input failing; but the dispatch at ModelElem.py line 230 uses
`isinstance`, and `bool` is a subclass of `int`, so an `int` descriptor
accepts `True` unchanged and a `float` descriptor widens `True` to `1.0`. -/
theorem claim_C5_counterexample :
    BaseModelElem.parse_value intElem (.bool true) = .ok (.bool true)
      ∧ pyTypeName (.bool true) ≠ "int"
      ∧ BaseModelElem.parse_value floatElem (.bool true) = .ok (.float 1) := by
  refine ⟨?_, by simp [pyTypeName], ?_⟩ <;>
    simp [BaseModelElem.parse_value, intElem, floatElem, isinstanceOf, pyAsInt, pyFloatOfInt]

/-- C5, amended.  For a primitive descriptor (`str`, `int`, `float`,
`bool`), parse succeeds exactly when the input is an *instance* of the
primitive in Python's sense — which admits `bool` values (and int-backed
enum members) for `int`, and `StrEnum` members for `str` — returned
unchanged, with the one extra case that a `float` descriptor widens any
int-instance via `float(val)`; every other input raises the conversion
error. -/
theorem claim_C5_primitive_parse (p : Origin) (v : PyVal)
    (hp : p = .strO ∨ p = .intO ∨ p = .floatO ∨ p = .boolO) :
    BaseModelElem.parse_value (.mk p []) v =
      (if isinstanceOf v p then .ok v
       else if p = .floatO ∧ isinstanceOf v .intO then .ok (pyFloatOfInt v)
       else .error (.modelElemError (cannotParseMsg v (.mk p [])))) := by
  rcases hp with h | h | h | h <;> subst h <;>
    by_cases h1 : isinstanceOf v .strO <;>
    by_cases h2 : isinstanceOf v .intO <;>
    by_cases h3 : isinstanceOf v .floatO <;>
    by_cases h4 : isinstanceOf v .boolO <;>
    simp_all [BaseModelElem.parse_value]

/-- C5, witness: the amended statement at `int` with input `5` and at
`float` with input `2`. -/
theorem claim_C5_primitive_parse_witness :
    BaseModelElem.parse_value (.mk .intO []) (.int 5) = .ok (.int 5)
      ∧ BaseModelElem.parse_value (.mk .floatO []) (.int 2) = .ok (.float 2) := by
  constructor
  · have h := claim_C5_primitive_parse .intO (.int 5) (by simp)
    simpa [isinstanceOf, pyAsInt] using h
  · have h := claim_C5_primitive_parse .floatO (.int 2) (by simp)
    simpa [isinstanceOf, pyAsInt, pyFloatOfInt] using h

theorem tryAlternates_append_fail (pre rest : List AlternateModelElem) (v : PyVal)
    (h : ∀ a ∈ pre, ∀ r, altAttempt a v ≠ .ok r) :
    tryAlternates (pre ++ rest) v = tryAlternates rest v := by
  induction pre with
  | nil => rfl
  | cons a l ih =>
    rw [List.cons_append, tryAlternates]
    cases ha : altAttempt a v with
    | ok r => exact absurd ha (h a (by simp) r)
    | error e => exact ih (fun a2 h2 r => h a2 (by simp [h2]) r)

theorem tryAlternates_cons_ok (a : AlternateModelElem) (rest : List AlternateModelElem)
    (v : PyVal) (r : PyVal) (h : altAttempt a v = .ok r) :
    tryAlternates (a :: rest) v = some r := by
  rw [tryAlternates, h]

theorem tryAlternates_all_fail (alts : List AlternateModelElem) (v : PyVal)
    (h : ∀ a ∈ alts, ∀ r, altAttempt a v ≠ .ok r) :
    tryAlternates alts v = Option.none := by
  induction alts with
  | nil => rfl
  | cons a l ih =>
    rw [tryAlternates]
    cases ha : altAttempt a v with
    | ok r => exact absurd ha (h a (by simp) r)
    | error e => exact ih (fun a2 h2 r => h a2 (by simp [h2]) r)

/-- C6.  For an element with a non-empty alternates list whose primary parse
fails, the alternates are attempted strictly in declared order, each attempt
being the alternate's own parse followed by its transformer
(`a.transformer(a.parse_value(val))`, ModelElem.py line 545): the first
alternate whose parse-then-transform succeeds determines the returned value,
and when every alternate fails a single aggregated `ModelElemError` is
raised whose message (lines 548-552) names the primary target type
(`self.annotated_type`) and the count of alternates attempted. -/
theorem claim_C6_alternates_order (m : ModelElem) (v : PyVal) {e : PyErr}
    (hig : m.ignored = false)
    (hfail : BaseModelElem.parse_value m.base v = .error e)
    (hne : m.alternates ≠ []) :
    (∀ pre a post r, m.alternates = pre ++ a :: post →
        (∀ a2 ∈ pre, ∀ r2, altAttempt a2 v ≠ .ok r2) →
        altAttempt a v = .ok r →
        ModelElem.parse_value m v = .ok r)
    ∧ ((∀ a ∈ m.alternates, ∀ r2, altAttempt a v ≠ .ok r2) →
        ModelElem.parse_value m v = .error (.modelElemError (parseAggMsg m v))) := by
  constructor
  · intro pre a post r hsplit hpre hok
    rw [ModelElem.parse_value, if_neg (by simp [hig]), hfail]
    have htry : tryAlternates m.alternates v = some r := by
      rw [hsplit, tryAlternates_append_fail pre (a :: post) v hpre,
        tryAlternates_cons_ok a post v r hok]
    rcases halts : m.alternates with _ | ⟨a1, rest⟩
    · exact absurd halts hne
    · rw [halts] at htry
      simp [htry]
  · intro hall
    rw [ModelElem.parse_value, if_neg (by simp [hig]), hfail]
    have htry : tryAlternates m.alternates v = Option.none :=
      tryAlternates_all_fail m.alternates v hall
    rcases halts : m.alternates with _ | ⟨a1, rest⟩
    · exact absurd halts hne
    · rw [halts] at htry
      simp [htry]

/-- An alternate accepting a string and transforming it to the int `123`
(shaped like the tests' `ModelElem(int, alternates=[AlternateModelElem(str,
int)])` at tests/TestJSONModel2.py line 115, at the input `"123"`). -/
def altStrToInt : AlternateModelElem :=
  { base := strElem, transformer := fun _ => .ok (.int 123), jsonifier := Option.none }

/-- `ModelElem(int, alternates=[AlternateModelElem(str, ...)])`. -/
def intWithAlt : ModelElem := ModelElem.init intElem (.tuple []) Option.none [altStrToInt] false

/-- C6, witness: parsing `"123"` through the int-with-str-alternate element
returns the transformed value; parsing `None` (primary and alternate both
fail) raises the aggregated error. -/
theorem claim_C6_alternates_order_witness :
    ModelElem.parse_value intWithAlt (.str "123") = .ok (.int 123)
      ∧ ModelElem.parse_value intWithAlt .none
          = .error (.modelElemError (parseAggMsg intWithAlt .none)) := by
  constructor
  · exact (claim_C6_alternates_order intWithAlt (.str "123")
        (e := .modelElemError (cannotParseMsg (.str "123") intElem))
        rfl
        (by simp [intWithAlt, ModelElem.init, intElem, BaseModelElem.parse_value,
          isinstanceOf, pyAsInt])
        (by simp [intWithAlt, ModelElem.init])).1
      [] altStrToInt [] (.int 123) rfl (by simp)
      (by simp [altAttempt, altStrToInt, strElem, BaseModelElem.parse_value,
        isinstanceOf, pyAsStr])
  · exact (claim_C6_alternates_order intWithAlt .none
        (e := .modelElemError (cannotParseMsg .none intElem))
        rfl
        (by simp [intWithAlt, ModelElem.init, intElem, BaseModelElem.parse_value,
          isinstanceOf, pyAsInt])
        (by simp [intWithAlt, ModelElem.init])).2
      (by
        intro a ha r2
        have : a = altStrToInt := by
          simpa [intWithAlt, ModelElem.init] using ha
        subst this
        simp [altAttempt, altStrToInt, strElem, BaseModelElem.parse_value,
          isinstanceOf, pyAsStr])

theorem parseUnion_append_fail (pre rest : List BaseModelElem) (v : PyVal) (err : PyErr)
    (h : ∀ g ∈ pre, ∃ msg, BaseModelElem.parse_value g v = .error (.modelElemError msg)) :
    parseUnion (pre ++ rest) v err = parseUnion rest v err := by
  induction pre with
  | nil => rfl
  | cons g l ih =>
    obtain ⟨msg, hmsg⟩ := h g (by simp)
    rw [List.cons_append, parseUnion, hmsg]
    exact ih (fun g2 h2 => h g2 (by simp [h2]))

theorem parseUnion_cons_ok (g : BaseModelElem) (rest : List BaseModelElem) (v r : PyVal)
    (err : PyErr) (h : BaseModelElem.parse_value g v = .ok r) :
    parseUnion (g :: rest) v err = .ok r := by
  rw [parseUnion, h]

theorem parseUnion_all_fail (gs : List BaseModelElem) (v : PyVal) (err : PyErr)
    (h : ∀ g ∈ gs, ∃ msg, BaseModelElem.parse_value g v = .error (.modelElemError msg)) :
    parseUnion gs v err = .error err := by
  induction gs with
  | nil => simp [parseUnion]
  | cons g l ih =>
    obtain ⟨msg, hmsg⟩ := h g (by simp)
    rw [parseUnion, hmsg]
    exact ih (fun g2 h2 => h g2 (by simp [h2]))

theorem parse_value_unionO (gs : List BaseModelElem) (v : PyVal) :
    BaseModelElem.parse_value (.mk .unionO gs) v
      = parseUnion gs v (.modelElemError (unionFailMsg gs v)) := by
  rw [BaseModelElem.parse_value]

/-- C7, counterexample.  In the union `Union[Status, str]` the string child
would succeed on `"PENDING"`, but the union loop catches only
`ModelElemError` (ModelElem.py line 157) while the `Status` (IntEnum) child
raises `KeyError` (line 296, uncaught by `except ValueError`), which aborts
the loop: `parse_value` raises `KeyError` instead of returning the first
successful child's result. -/
theorem claim_C7_counterexample :
    BaseModelElem.parse_value (.mk .unionO [statusElem, strElem]) (.str "PENDING")
        = .error (.keyError "PENDING")
      ∧ BaseModelElem.parse_value strElem (.str "PENDING") = .ok (.str "PENDING") := by
  constructor
  · rw [parse_value_unionO, parseUnion]
    simp [BaseModelElem.parse_value, statusElem, statusDecl, isinstanceOf, pyAsInt,
      pyAsStr, findMemberByName, pyAsNum]
  · simp [BaseModelElem.parse_value, strElem, isinstanceOf, pyAsStr]

/-- C7, amended.  For a union descriptor, `parse_value` tries each child in
declared order, catching only the engine's `ModelElemError`: when every
earlier child fails with `ModelElemError`, the first child that succeeds
determines the result; a child that raises any other exception (such as the
`KeyError` escaping enum name lookups) propagates immediately instead; and
when all children fail with `ModelElemError`, the raised conversion error's
message enumerates all of the attempted target types
(`', '.join(repr(g.annotated_type) for g in self.generics)`, ModelElem.py
lines 159-160). -/
theorem claim_C7_union_first_success (gs : List BaseModelElem) (v : PyVal) :
    (∀ pre g post r, gs = pre ++ g :: post →
        (∀ g2 ∈ pre, ∃ msg, BaseModelElem.parse_value g2 v = .error (.modelElemError msg)) →
        BaseModelElem.parse_value g v = .ok r →
        BaseModelElem.parse_value (.mk .unionO gs) v = .ok r)
    ∧ ((∀ g ∈ gs, ∃ msg, BaseModelElem.parse_value g v = .error (.modelElemError msg)) →
        BaseModelElem.parse_value (.mk .unionO gs) v
          = .error (.modelElemError (unionFailMsg gs v))) := by
  constructor
  · intro pre g post r hsplit hpre hok
    rw [parse_value_unionO, hsplit,
      parseUnion_append_fail pre (g :: post) v _ hpre,
      parseUnion_cons_ok g post v r _ hok]
  · intro hall
    rw [parse_value_unionO, parseUnion_all_fail gs v _ hall]

/-- C7, witness: `Union[int, str]` on `"x"` — the int child fails with the
conversion error, the str child succeeds — returns `"x"`; `Union[int, bool]`
on `"x"` — both children fail with the conversion error — raises the
aggregated union error. -/
theorem claim_C7_union_first_success_witness :
    BaseModelElem.parse_value (.mk .unionO [intElem, strElem]) (.str "x") = .ok (.str "x")
      ∧ BaseModelElem.parse_value (.mk .unionO [intElem, boolElem]) (.str "x")
          = .error (.modelElemError (unionFailMsg [intElem, boolElem] (.str "x"))) := by
  constructor
  · exact (claim_C7_union_first_success [intElem, strElem] (.str "x")).1
      [intElem] strElem [] (.str "x") rfl
      (by
        intro g2 h2
        have hg2 : g2 = intElem := by simpa using h2
        subst hg2
        exact ⟨cannotParseMsg (.str "x") (.mk .intO []),
          by simp [BaseModelElem.parse_value, intElem, isinstanceOf, pyAsInt]⟩)
      (by simp [BaseModelElem.parse_value, strElem, isinstanceOf, pyAsStr])
  · exact (claim_C7_union_first_success [intElem, boolElem] (.str "x")).2
      (by
        intro g hg
        have hor : g = intElem ∨ g = boolElem := by simpa using hg
        rcases hor with h1 | h1 <;> subst h1
        · exact ⟨cannotParseMsg (.str "x") (.mk .intO []),
            by simp [BaseModelElem.parse_value, intElem, isinstanceOf, pyAsInt]⟩
        · exact ⟨cannotParseMsg (.str "x") (.mk .boolO []),
            by simp [BaseModelElem.parse_value, boolElem, isinstanceOf]⟩)

theorem findSubclass_skip (name : PyVal) (pre rest : List ModelClass)
    (h : ∀ c ∈ pre, c.is_glue = true ∨ pyEq name (JSONModel.model_identity c) = false) :
    findSubclass name (pre ++ rest) = findSubclass name rest := by
  induction pre with
  | nil => rfl
  | cons c l ih =>
    rw [List.cons_append, findSubclass]
    rcases h c (by simp) with hg | hm
    · rw [hg]
      simpa using ih (fun c2 h2 => h c2 (by simp [h2]))
    · rw [hm]
      simpa using ih (fun c2 h2 => h c2 (by simp [h2]))

theorem findSubclass_found (name : PyVal) (a : ModelClass) (rest : List ModelClass)
    (h1 : a.is_glue = false) (h2 : pyEq name (JSONModel.model_identity a) = true) :
    findSubclass name (a :: rest) = some a := by
  rw [findSubclass, h1, h2]
  rfl

theorem findSubclass_none (name : PyVal) (gs : List ModelClass)
    (h : ∀ c ∈ gs, c.is_glue = true ∨ pyEq name (JSONModel.model_identity c) = false) :
    findSubclass name gs = Option.none := by
  induction gs with
  | nil => rfl
  | cons c l ih =>
    rw [findSubclass]
    rcases h c (by simp) with hg | hm
    · rw [hg]
      simpa using ih (fun c2 h2 => h c2 (by simp [h2]))
    · rw [hm]
      simpa using ih (fun c2 h2 => h c2 (by simp [h2]))

theorem construct_cls (c : ModelClass) (kwargs : JDict) (inst : Instance)
    (h : JSONModel.construct c kwargs = .ok inst) : inst.cls = c.name := by
  unfold JSONModel.construct at h
  cases hv : (JSONModel.validate_model c (JSONModel.get_model c) kwargs false).1 with
  | error er => rw [hv] at h; cases h
  | ok flds =>
    rw [hv] at h
    cases h
    rfl

/-- C8.  With a registered subtype of declared identity `"A"`: `from_json`
on the base type with an object whose discriminator key holds `"A"` resolves
to that concrete subtype — the resolution walks `cls` itself then the
registered subclass enumeration, skipping glue classes and earlier
non-matches — and the constructed instance is of the subtype's class; and
`from_json` with a discriminator value matching neither the base type's own
identity nor any registered subtype raises the subtype-resolution error
(`JSONModelError`, JSONModel.py lines 413-414) naming the base type and the
unmatched value. -/
theorem claim_C8_polymorphic_dispatch (b : ModelClass) (subs : List ModelClass)
    (cache : ModelCache) :
    (∀ (o o2 : JDict) (pre post : List ModelClass) (a : ModelClass) (inst : Instance),
        dpop o b.name_field = some (.str "A", o2) →
        (if (PyVal.str "A").hashable then cacheLookup cache (.str "A") b.name
         else Option.none) = Option.none →
        (b.is_glue = true ∨ pyEq (.str "A") (JSONModel.model_identity b) = false) →
        subs = pre ++ a :: post →
        (∀ c ∈ pre, c.is_glue = true ∨ pyEq (.str "A") (JSONModel.model_identity c) = false) →
        a.is_glue = false →
        pyEq (.str "A") (JSONModel.model_identity a) = true →
        (match JSONModel.parse_json a o with
         | .ok parsed => JSONModel.construct a parsed
         | .error er => .error er) = .ok inst →
        (JSONModel.from_json b subs o cache).1 = .ok inst ∧ inst.cls = a.name)
    ∧ (∀ (o o2 : JDict) (nm : PyVal),
        dpop o b.name_field = some (nm, o2) →
        (if nm.hashable then cacheLookup cache nm b.name else Option.none) = Option.none →
        (b.is_glue = true ∨ pyEq nm (JSONModel.model_identity b) = false) →
        (∀ c ∈ subs, c.is_glue = true ∨ pyEq nm (JSONModel.model_identity c) = false) →
        (JSONModel.from_json b subs o cache).1
          = .error (.jsonModelError (subclassNotFoundMsg b.name nm))) := by
  constructor
  · intro o o2 pre post a inst hpop hcache hb hsplit hpre ha1 ha2 hpc
    have hfind : findSubclass (.str "A") (b :: subs) = some a := by
      have hsp : b :: subs = (b :: pre) ++ a :: post := by rw [hsplit]; rfl
      rw [hsp, findSubclass_skip (.str "A") (b :: pre) (a :: post)
          (by
            intro c hc
            cases hc with
            | head => exact hb
            | tail _ hc2 => exact hpre c hc2),
        findSubclass_found (.str "A") a post ha1 ha2]
    have hext : JSONModel.extract_subclass_by_name b subs (.str "A") cache
        = (.ok a, ((.str "A", b.name), a) :: cache) := by
      rw [JSONModel.extract_subclass_by_name, hcache, hfind]
      rfl
    have hcls : inst.cls = a.name := by
      cases hp : JSONModel.parse_json a o with
      | error er => rw [hp] at hpc; cases hpc
      | ok parsed =>
        rw [hp] at hpc
        simp at hpc
        exact construct_cls a parsed inst hpc
    refine ⟨?_, hcls⟩
    simp only [JSONModel.from_json, JSONModel.pop_name_from_name_field, hpop, hext]
    cases hp : JSONModel.parse_json a o with
    | error er => rw [hp] at hpc; cases hpc
    | ok parsed =>
      rw [hp] at hpc
      simp at hpc
      simp [hpc]
  · intro o o2 nm hpop hcache hb hsubs
    have hfind : findSubclass nm (b :: subs) = Option.none := by
      apply findSubclass_none
      intro c hc
      cases hc with
      | head => exact hb
      | tail _ hc2 => exact hsubs c hc2
    have hext : JSONModel.extract_subclass_by_name b subs nm cache
        = (.error (.jsonModelError (subclassNotFoundMsg b.name nm)), cache) := by
      rw [JSONModel.extract_subclass_by_name, hcache, hfind]
    simp only [JSONModel.from_json, JSONModel.pop_name_from_name_field, hpop, hext]

/-- C8, witness: the concrete family `BaseModel` with registered subtype
`SubModelA` (identity `"A"`, preceded in the subclass enumeration by its
glue class, which also answers to `"A"` but is skipped): `from_json` with
`"__name": "A"` builds a `SubModelA` instance; `from_json` with `"__name":
"Z"` raises the resolution error naming `BaseModel` and `Z`. -/
theorem claim_C8_polymorphic_dispatch_witness :
    (JSONModel.from_json BaseModelC [SubAGlueC, SubModelAC]
        [("__name", .str "A"), ("base_field", .str "hello"), ("sub_a_field", .int 5)] []).1
      = .ok { cls := "SubModelA",
              fields := [("base_field", .str "hello"), ("sub_a_field", .int 5)] }
    ∧ (JSONModel.from_json BaseModelC [SubAGlueC, SubModelAC]
        [("__name", .str "Z"), ("base_field", .str "hello")] []).1
      = .error (.jsonModelError (subclassNotFoundMsg "BaseModel" (.str "Z"))) := by
  constructor
  · have h := (claim_C8_polymorphic_dispatch BaseModelC [SubAGlueC, SubModelAC] []).1
      [("__name", .str "A"), ("base_field", .str "hello"), ("sub_a_field", .int 5)]
      [("base_field", .str "hello"), ("sub_a_field", .int 5)]
      [SubAGlueC] [] SubModelAC
      { cls := "SubModelA", fields := [("base_field", .str "hello"), ("sub_a_field", .int 5)] }
      (by simp [dpop, BaseModelC])
      (by simp [cacheLookup])
      (Or.inr (by simp [pyEq, pyAsNum, pyAsStr, JSONModel.model_identity, BaseModelC]))
      rfl
      (by
        intro c hc
        have hce : c = SubAGlueC := by simpa using hc
        subst hce
        exact Or.inl rfl)
      rfl
      (by simp [pyEq, pyAsNum, pyAsStr, JSONModel.model_identity, SubModelAC])
      (by simp [JSONModel.parse_json, parseJsonGo, dlookup, SubModelAC, strField_parse,
        intField_parse, JSONModel.construct, JSONModel.validate_model, JSONModel.get_model,
        validateModelGo, dpop, dkeys, strField_validate, intField_validate])
    exact h.1
  · exact (claim_C8_polymorphic_dispatch BaseModelC [SubAGlueC, SubModelAC] []).2
      [("__name", .str "Z"), ("base_field", .str "hello")]
      [("base_field", .str "hello")] (.str "Z")
      (by simp [dpop, BaseModelC])
      (by simp [cacheLookup])
      (Or.inr (by simp [pyEq, pyAsNum, pyAsStr, JSONModel.model_identity, BaseModelC]))
      (by
        intro c hc
        have hor : c = SubAGlueC ∨ c = SubModelAC := by simpa using hc
        rcases hor with h1 | h1 <;> subst h1
        · exact Or.inl rfl
        · exact Or.inr (by simp [pyEq, pyAsNum, pyAsStr, JSONModel.model_identity, SubModelAC]))

/-- C9.  Neither `from_json` nor direct construction mutates the
caller-supplied mapping: `_from_json_meta` (JSONModel.py line 362) pops the
discriminator only from `copy = {k: v for k, v in o.items()}`, and
`_validate_model` (line 431) rebinds `values` to `{**values}` and pops
consumed keys only from that copy, so — success or failure — the
caller-visible final state of the argument dictionary equals its original
entries. -/
theorem claim_C9_no_caller_mutation :
    (∀ (c : ModelClass) (subs : List ModelClass) (o : JDict) (cache : ModelCache),
        (JSONModel.from_json c subs o cache).2.1 = o)
    ∧ (∀ (c : ModelClass) (model : List (String × ModelElem)) (values : JDict) (ig : Bool),
        (JSONModel.validate_model c model values ig).2 = values) := by
  constructor
  · intro c subs o cache
    rw [JSONModel.from_json]
    split
    · rfl
    · split
      · rfl
      · split
        · rfl
        · split <;> rfl
  · intro c model values ig
    rfl

/-- C10.  A `ModelElem` constructed with neither a default value (the
`default` keyword left at its `()` sentinel) nor a default factory has
`has_default() = False`, and reading the `default` property raises
`ModelElemError` (ModelElem.py lines 516-519); conversely, whenever
`has_default()` is true the property returns a value — the stored default,
or a fresh result of the factory (lines 520-522). -/
theorem claim_C10_default_access :
    (∀ (typ : BaseModelElem) (alts : List AlternateModelElem) (ign : Bool),
        (ModelElem.init typ (.tuple []) Option.none alts ign).has_default = false
          ∧ (ModelElem.init typ (.tuple []) Option.none alts ign).default
              = .error (.modelElemError noDefaultMsg))
    ∧ (∀ m : ModelElem, m.has_default = true → ∃ v, m.default = .ok v) := by
  constructor
  · intro typ alts ign
    exact ⟨rfl, rfl⟩
  · intro m hm
    rw [ModelElem.default, if_neg (by simp [hm])]
    cases hf : m.defaultFactory with
    | some f => exact ⟨f (), rfl⟩
    | none =>
      cases hd : m.defaultTup with
      | nil =>
        rw [ModelElem.has_default, hd, hf] at hm
        simp at hm
      | cons d rest => exact ⟨d, rfl⟩

/-- C10, witness: a required `int` element (no default, no factory) and the
`bool_field` element with default `True`. -/
theorem claim_C10_default_access_witness :
    (ModelElem.init intElem (.tuple []) Option.none [] false).has_default = false
      ∧ (ModelElem.init intElem (.tuple []) Option.none [] false).default
          = .error (.modelElemError noDefaultMsg)
      ∧ ∃ v, boolFieldDefTrue.default = .ok v :=
  ⟨(claim_C10_default_access.1 intElem [] false).1,
   (claim_C10_default_access.1 intElem [] false).2,
   claim_C10_default_access.2 boolFieldDefTrue rfl⟩
